import Mathlib

/-!
Verification of the LexGuard clause-risk pipeline.

Python strings are modelled as `List Char`; Python floats as `ℚ`; fallible
operations as `Except`.  The injected LLM capability is a parameter of type
`Except Err α`: `.ok` models a successful completion, `.error` models any
exception raised by the capability.
-/

namespace LexGuard

/-- A Python `str`, modelled as its list of characters. -/
abbrev PyStr := List Char

/-- Coerce a Lean string literal to the Python-string model. -/
def pstr (s : String) : PyStr := s.data

/-- Membership in Python's `str.strip()` / regex `\s` whitespace set (ASCII). -/
def isPySpace (c : Char) : Bool :=
  c = ' ' || c = '\t' || c = '\n' || c = '\r' || c = '\x0b' || c = '\x0c'

/-- Regex `\w` word character (ASCII model). -/
def isWordChar (c : Char) : Bool :=
  ('a' ≤ c && c ≤ 'z') || ('A' ≤ c && c ≤ 'Z') || ('0' ≤ c && c ≤ '9') || c = '_'

/-- Regex `\d`. -/
def isDigitChar (c : Char) : Bool := '0' ≤ c && c ≤ '9'

/-- ASCII cased letter. -/
def isCasedChar (c : Char) : Bool := ('a' ≤ c && c ≤ 'z') || ('A' ≤ c && c ≤ 'Z')

/-- ASCII upper-case letter. -/
def isUpperChar (c : Char) : Bool := 'A' ≤ c && c ≤ 'Z'

/-- `str.lower` on one character (ASCII model). -/
def pyToLowerChar (c : Char) : Char :=
  if 'A' ≤ c && c ≤ 'Z' then Char.ofNat (c.toNat + 32) else c

/-- `str.upper` on one character (ASCII model). -/
def pyToUpperChar (c : Char) : Char :=
  if 'a' ≤ c && c ≤ 'z' then Char.ofNat (c.toNat - 32) else c

/-- Python `str.lower()`. -/
def pyLower (s : PyStr) : PyStr := s.map pyToLowerChar

/-- Python `str.upper()`. -/
def pyUpper (s : PyStr) : PyStr := s.map pyToUpperChar

/-- Python `str.strip()`. -/
def pyStrip (s : PyStr) : PyStr :=
  ((s.dropWhile isPySpace).reverse.dropWhile isPySpace).reverse

/-- Python `str.isupper()`: at least one cased character and no lower-case one. -/
def pyIsUpper (s : PyStr) : Bool :=
  s.any isCasedChar && s.all (fun c => !isCasedChar c || isUpperChar c)

/-- Python `str.endswith(c)` for a single character. -/
def pyEndsWith (s : PyStr) (c : Char) : Bool := s.getLast? = some c

/-- Is `needle` a prefix of `hay`? -/
def isPrefixOfB : PyStr → PyStr → Bool
  | [], _ => true
  | _ :: _, [] => false
  | a :: as, b :: bs => a = b && isPrefixOfB as bs

/-- Python's substring test `needle in hay` (contiguous substring). -/
def containsSub (needle : PyStr) : PyStr → Bool
  | [] => isPrefixOfB needle []
  | c :: t => isPrefixOfB needle (c :: t) || containsSub needle t

/-- Python `str(n)` for a non-negative integer. -/
def natToStr (n : Nat) : PyStr := (toString n).data

/-- Python `int(s)` for a digit string. -/
def digitsToNat (ds : PyStr) : Nat := ds.foldl (fun a c => a * 10 + (c.toNat - 48)) 0

/-- Split a string into its maximal prefix of characters satisfying `p` and the rest. -/
def takeRun (p : Char → Bool) : PyStr → PyStr × PyStr
  | [] => ([], [])
  | c :: t =>
    if p c then
      let r := takeRun p t
      (c :: r.1, r.2)
    else ([], c :: t)

/-- Python `str.title()` (ASCII model): upper-case each cased character that
follows an uncased one, lower-case the rest. -/
def pyTitleGo : Bool → PyStr → PyStr
  | _, [] => []
  | prevCased, c :: t =>
    if isCasedChar c then
      (if prevCased then pyToLowerChar c else pyToUpperChar c) :: pyTitleGo true t
    else c :: pyTitleGo false t

/-- Python `str.title()`. -/
def pyTitle (s : PyStr) : PyStr := pyTitleGo false s

/-- Python `str.replace("_", " ")`. -/
def replaceUnderscore (s : PyStr) : PyStr := s.map (fun c => if c = '_' then ' ' else c)

/-!
A small regular-expression engine covering exactly the constructs used by the
repository's patterns: character classes, greedy `+`/`*` over a class, `(?:…)?`,
alternation, concatenation and the word boundary `\b`.  Matching enumerates all
ways a regex can match a prefix of the input, in Python's backtracking
preference order (alternatives left to right, quantifiers greedy), so the head
of the outcome list is the match Python's `re` would pick at that position.
-/

/-- Regex abstract syntax (the fragment the source code uses). -/
inductive RTok : Type where
  | eps : RTok
  | cls (p : Char → Bool) : RTok
  | plus (p : Char → Bool) : RTok
  | star (p : Char → Bool) : RTok
  | seq (a b : RTok) : RTok
  | alt (a b : RTok) : RTok
  | opt (a : RTok) : RTok
  | wb : RTok

/-- Is there a `\b` word boundary between the previous character and the next one? -/
def boundaryOk (prev next : Option Char) : Bool :=
  let pw := match prev with | some c => isWordChar c | none => false
  let nw := match next with | some c => isWordChar c | none => false
  pw != nw

/-- All ways a greedy run of class characters (length ≥ `lo`) can match a prefix
of `s`, longest first; each outcome is the rest of the input paired with the
last consumed character (`prev` if nothing was consumed). -/
def runOutcomes (p : Char → Bool) (lo : Nat) (s : PyStr) (prev : Option Char) :
    List (PyStr × Option Char) :=
  let maxLen := (takeRun p s).1.length
  ((List.range (maxLen + 1)).reverse.filter (fun n => lo ≤ n)).map
    (fun n => match n with
      | 0 => (s, prev)
      | m + 1 => (s.drop (m + 1), (s.drop m).head?))

/-- All outcomes of matching regex `r` against a prefix of `s`, in Python's
backtracking preference order. -/
def reOutcomes : RTok → PyStr → Option Char → List (PyStr × Option Char)
  | .eps, s, prev => [(s, prev)]
  | .cls p, s, _ =>
    match s with
    | [] => []
    | c :: t => if p c then [(t, some c)] else []
  | .plus p, s, prev => runOutcomes p 1 s prev
  | .star p, s, prev => runOutcomes p 0 s prev
  | .seq a b, s, prev => (reOutcomes a s prev).flatMap (fun o => reOutcomes b o.1 o.2)
  | .alt a b, s, prev => reOutcomes a s prev ++ reOutcomes b s prev
  | .opt a, s, prev => reOutcomes a s prev ++ [(s, prev)]
  | .wb, s, prev => if boundaryOk prev s.head? then [(s, prev)] else []

/-- A single literal character. -/
def chr (c : Char) : RTok := .cls (· == c)

/-- A sequence of regexes. -/
def rseq (l : List RTok) : RTok := l.foldr .seq .eps

/-- A literal string. -/
def rlit (s : String) : RTok := rseq (s.data.map chr)

/-- `\bword\b`. -/
def word (s : String) : RTok := rseq [.wb, rlit s, .wb]

/-- `\s+`. -/
def spc : RTok := .plus isPySpace

/-- `re.search(r, s)` as a Boolean, scanning start positions left to right.
`prev` is the character before the current position. -/
def reSearchAux (r : RTok) : PyStr → Option Char → Bool
  | [], prev => !(reOutcomes r [] prev).isEmpty
  | c :: t, prev => !(reOutcomes r (c :: t) prev).isEmpty || reSearchAux r t (some c)

/-- `re.search(pattern, s) is not None`. -/
def reSearch (r : RTok) (s : PyStr) : Bool := reSearchAux r s none

/-- `len(re.findall(pattern, s))`: count non-overlapping matches, scanning left
to right and resuming after the end of each match (advancing one character on a
zero-width match, as Python does).  The recursion is fuelled so that it is
structural (hence kernel-computable); every step shortens the input, so
`length + 1` fuel always suffices. -/
def reCountFuel (r : RTok) : Nat → PyStr → Option Char → Nat
  | 0, _, _ => 0
  | fuel + 1, s, prev =>
    match (reOutcomes r s prev).head? with
    | none =>
      match s with
      | [] => 0
      | c :: t => reCountFuel r fuel t (some c)
    | some o =>
      1 + (if o.1.length < s.length then reCountFuel r fuel o.1 o.2
           else match s with
                | [] => 0
                | c :: t => reCountFuel r fuel t (some c))

/-- `len(re.findall(pattern, s))`. -/
def reCount (r : RTok) (s : PyStr) : Nat := reCountFuel r (s.length + 1) s none

/-- First match of the source pattern `(\d+)\s*(?:unit₁|unit₂|…)` in `s`,
returning the integer value of the digit group (`re.search` + `int(group(1))`).
Scanning is left to right; at each digit the maximal digit run is taken, then
`\s*` maximally, then a unit prefix is required.  Backtracking to a shorter
digit run or fewer spaces can never succeed here because no unit begins with a
digit or whitespace, so the greedy choice is exact. -/
def findNumberUnit (units : List PyStr) : PyStr → Option Nat
  | [] => none
  | c :: t =>
    if isDigitChar c then
      let run := takeRun isDigitChar (c :: t)
      let afterSpaces := run.2.dropWhile isPySpace
      if units.any (fun u => isPrefixOfB u afterSpaces) then some (digitsToNat run.1)
      else findNumberUnit units t
    else findNumberUnit units t

/-!
SHA-256 over byte lists (bytes are `Nat`s below 256), used by the pure fallback
vectorizer (`hashlib.sha256(text.encode()).digest()`).  32-bit words are `Nat`s
reduced modulo `2 ^ 32`.
-/

/-- Reduce to a 32-bit word. -/
def w32 (x : Nat) : Nat := x % 4294967296

/-- 32-bit right rotation. -/
def rotr (n x : Nat) : Nat := w32 ((x >>> n) ||| (x <<< (32 - n)))

/-- SHA-256 `Ch`. -/
def shaCh (x y z : Nat) : Nat := (x &&& y) ^^^ ((x ^^^ 0xffffffff) &&& z)

/-- SHA-256 `Maj`. -/
def shaMaj (x y z : Nat) : Nat := (x &&& y) ^^^ (x &&& z) ^^^ (y &&& z)

/-- SHA-256 `Σ₀`. -/
def bigSigma0 (x : Nat) : Nat := rotr 2 x ^^^ rotr 13 x ^^^ rotr 22 x

/-- SHA-256 `Σ₁`. -/
def bigSigma1 (x : Nat) : Nat := rotr 6 x ^^^ rotr 11 x ^^^ rotr 25 x

/-- SHA-256 `σ₀`. -/
def smallSigma0 (x : Nat) : Nat := rotr 7 x ^^^ rotr 18 x ^^^ (x >>> 3)

/-- SHA-256 `σ₁`. -/
def smallSigma1 (x : Nat) : Nat := rotr 17 x ^^^ rotr 19 x ^^^ (x >>> 10)

/-- SHA-256 round constants. -/
def shaK : List Nat :=
  [1116352408, 1899447441, 3049323471, 3921009573, 961987163,
   1508970993, 2453635748, 2870763221, 3624381080, 310598401,
   607225278, 1426881987, 1925078388, 2162078206, 2614888103,
   3248222580, 3835390401, 4022224774, 264347078, 604807628,
   770255983, 1249150122, 1555081692, 1996064986, 2554220882,
   2821834349, 2952996808, 3210313671, 3336571891, 3584528711,
   113926993, 338241895, 666307205, 773529912, 1294757372,
   1396182291, 1695183700, 1986661051, 2177026350, 2456956037,
   2730485921, 2820302411, 3259730800, 3345764771, 3516065817,
   3600352804, 4094571909, 275423344, 430227734, 506948616,
   659060556, 883997877, 958139571, 1322822218, 1537002063,
   1747873779, 1955562222, 2024104815, 2227730452, 2361852424,
   2428436474, 2756734187, 3204031479, 3329325298]

/-- SHA-256 initial hash state. -/
def shaH0 : List Nat :=
  [1779033703, 3144134277, 1013904242, 2773480762,
   1359893119, 2600822924, 528734635, 1541459225]

/-- Big-endian fixed-width byte expansion. -/
def natToBytesBE (n : Nat) (count : Nat) : List Nat :=
  (List.range count).map (fun i => (n >>> (8 * (count - 1 - i))) &&& 0xff)

/-- Group bytes into 32-bit big-endian words. -/
def bytesToWords : List Nat → List Nat
  | b0 :: b1 :: b2 :: b3 :: rest =>
    (((b0 * 256 + b1) * 256 + b2) * 256 + b3) :: bytesToWords rest
  | _ => []

/-- Split a byte list into 64-byte blocks (fuelled structural recursion;
`length + 1` fuel always suffices). -/
def chunks64Fuel : Nat → List Nat → List (List Nat)
  | 0, _ => []
  | _, [] => []
  | fuel + 1, c :: t => ((c :: t).take 64) :: chunks64Fuel fuel ((c :: t).drop 64)

/-- Split a byte list into 64-byte blocks. -/
def chunks64 (l : List Nat) : List (List Nat) := chunks64Fuel (l.length + 1) l

/-- SHA-256 message padding. -/
def sha256Pad (msg : List Nat) : List Nat :=
  let len := msg.length
  let k := (64 + 55 - len % 64) % 64
  msg ++ [0x80] ++ List.replicate k 0 ++ natToBytesBE (len * 8) 8

/-- Extend a 16-word block with `n` further schedule words. -/
def scheduleFrom (acc : List Nat) : Nat → List Nat
  | 0 => acc
  | n + 1 =>
    let i := acc.length
    let g := fun k => acc.getD (i - k) 0
    scheduleFrom (acc ++ [w32 (smallSigma1 (g 2) + g 7 + smallSigma0 (g 15) + g 16)]) n

/-- One SHA-256 compression round on the 8-word state. -/
def compressRound (st : List Nat) (kw : Nat × Nat) : List Nat :=
  match st with
  | [a, b, c, d, e, f, g, h] =>
    let t1 := w32 (h + bigSigma1 e + shaCh e f g + kw.1 + kw.2)
    let t2 := w32 (bigSigma0 a + shaMaj a b c)
    [w32 (t1 + t2), a, b, c, w32 (d + t1), e, f, g]
  | other => other

/-- Process one 16-word block. -/
def processBlock (h : List Nat) (block : List Nat) : List Nat :=
  let ws := scheduleFrom block 48
  let st := (shaK.zip ws).foldl compressRound h
  (h.zip st).map (fun p => w32 (p.1 + p.2))

/-- `hashlib.sha256(bytes).digest()`: the 32-byte SHA-256 digest. -/
def sha256 (msg : List Nat) : List Nat :=
  let blocks := chunks64 (sha256Pad msg)
  let hFinal := blocks.foldl (fun h b => processBlock h (bytesToWords b)) shaH0
  hFinal.flatMap (fun w => natToBytesBE w 4)

/-- Python `str.encode()`: UTF-8 encoding. -/
def utf8EncodeChar (c : Char) : List Nat :=
  let n := c.toNat
  if n < 0x80 then [n]
  else if n < 0x800 then [0xc0 ||| (n >>> 6), 0x80 ||| (n &&& 0x3f)]
  else if n < 0x10000 then
    [0xe0 ||| (n >>> 12), 0x80 ||| ((n >>> 6) &&& 0x3f), 0x80 ||| (n &&& 0x3f)]
  else
    [0xf0 ||| (n >>> 18), 0x80 ||| ((n >>> 12) &&& 0x3f),
     0x80 ||| ((n >>> 6) &&& 0x3f), 0x80 ||| (n &&& 0x3f)]

/-- Python `str.encode()` on a whole string. -/
def utf8Encode (s : PyStr) : List Nat := s.flatMap utf8EncodeChar

/-!
`lexguard/nlp/embedders.py`: the pure fallback vectorizer
`_get_simple_embedding` and the default provider path of `get_embedding` /
`get_embeddings_batch` (the `chromadb` branch, which delegates to it).
-/

/-- `re.findall(r'\b\w+\b', s)`: the maximal runs of word characters
(fuelled structural recursion; `length + 1` fuel always suffices). -/
def findWordsFuel : Nat → PyStr → List PyStr
  | 0, _ => []
  | _, [] => []
  | fuel + 1, c :: t =>
    if isWordChar c then
      let run := takeRun isWordChar t
      (c :: run.1) :: findWordsFuel fuel run.2
    else findWordsFuel fuel t

/-- `re.findall(r'\b\w+\b', s)`. -/
def findWords (s : PyStr) : List PyStr := findWordsFuel (s.length + 1) s

/-- Count occurrences of a character (`Counter(chars).get(char, 0)`). -/
def countChar (chars : PyStr) (c : Char) : Nat := chars.count c

/-- Count occurrences of a word (`Counter(words).get(word, 0)`). -/
def countWord (words : List PyStr) (w : PyStr) : Nat := words.count w

/-- `common_chars` from `_get_simple_embedding` ( `{` and `}` escaped). -/
def commonChars : PyStr := pstr "abcdefghijklmnopqrstuvwxyz0123456789 .,!?;:()[]\x7b\x7d-"

/-- `common_words` from `_get_simple_embedding`. -/
def commonWords : List PyStr :=
  [pstr "the", pstr "and", pstr "or", pstr "but", pstr "in", pstr "on", pstr "at",
   pstr "to", pstr "for", pstr "of", pstr "with", pstr "by",
   pstr "from", pstr "as", pstr "is", pstr "are", pstr "was", pstr "were",
   pstr "be", pstr "been", pstr "have", pstr "has", pstr "had",
   pstr "do", pstr "does", pstr "did", pstr "will", pstr "would", pstr "should",
   pstr "could", pstr "may", pstr "might", pstr "must",
   pstr "can", pstr "this", pstr "that", pstr "these", pstr "those",
   pstr "a", pstr "an", pstr "not", pstr "no", pstr "yes"]

/-- `_get_simple_embedding(text)`: character-frequency features, common-word
frequency features and a SHA-256-derived tail, padded with zeros and truncated
to 384 dimensions. -/
def _get_simple_embedding (text : PyStr) : List ℚ :=
  let text_lower := pyLower text
  let words := findWords text_lower
  let chars := text_lower
  let charFeatures := (commonChars.take 128).map
    (fun ch => (countChar chars ch : ℚ) / (max chars.length 1 : ℚ))
  let wordFeatures := (commonWords.take 128).map
    (fun w => (countWord words w : ℚ) / (max words.length 1 : ℚ))
  let hash_bytes := sha256 (utf8Encode text)
  let hashFeatures := (List.range 128).map
    (fun i => if i < hash_bytes.length then ((hash_bytes.getD i 0 : ℚ) - 128) / 128 else 0)
  let embedding := charFeatures ++ wordFeatures ++ hashFeatures
  (embedding ++ List.replicate (384 - embedding.length) 0).take 384

/-- `get_embedding(text)` in the default configuration (the `chromadb` provider
branch, which the source routes to `_get_simple_embedding`). -/
def get_embedding (text : PyStr) : List ℚ := _get_simple_embedding text

/-- `get_embeddings_batch(texts)` in the default configuration. -/
def get_embeddings_batch (texts : List PyStr) : List (List ℚ) :=
  texts.map _get_simple_embedding

/-!
`lexguard/models/clause.py` and `lexguard/models/risk.py`.
-/

/-- `ClauseType` (members in declaration order). -/
inductive ClauseType : Type where
  | termination | liability | payment | confidentiality
  | ip | non_compete | misc | unsure
deriving DecidableEq, Fintype

/-- Iteration order of the `ClauseType` enum (declaration order). -/
def clauseTypeList : List ClauseType :=
  [.termination, .liability, .payment, .confidentiality, .ip, .non_compete, .misc, .unsure]

/-- `ClauseType.<member>.value`. -/
def clauseTypeValue : ClauseType → PyStr
  | .termination => pstr "termination"
  | .liability => pstr "liability"
  | .payment => pstr "payment"
  | .confidentiality => pstr "confidentiality"
  | .ip => pstr "ip"
  | .non_compete => pstr "non_compete"
  | .misc => pstr "misc"
  | .unsure => pstr "unsure"

/-- The `"low" | "medium" | "high"` risk level. -/
inductive RiskLevel : Type where
  | low | medium | high
deriving DecidableEq

/-- The risk level's string value. -/
def riskLevelValue : RiskLevel → PyStr
  | .low => pstr "low"
  | .medium => pstr "medium"
  | .high => pstr "high"

/-- The `Clause` model. -/
structure Clause : Type where
  id : PyStr
  contract_id : PyStr
  index : Int
  text : PyStr
  clause_type : ClauseType := .unsure
  risk_score : Option ℚ := none
  risk_level : Option RiskLevel := none
  embedding_id : Option PyStr := none
deriving DecidableEq

/-- The `ClauseRisk` model. -/
structure ClauseRisk : Type where
  clause_id : PyStr
  score : ℚ
  level : RiskLevel
  reasons : List PyStr
  recommendations : List PyStr
deriving DecidableEq

/-- The `Contract` model (the fields the verified operations use). -/
structure Contract : Type where
  id : PyStr
  title : PyStr
  text : PyStr
  clauses : List Clause
deriving DecidableEq

/-- An LLM-capability failure: the message of the raised exception. -/
abbrev Err := PyStr

/-!
`lexguard/nlp/clause_classifier.py`.
-/

/-- `CLAUSE_PATTERNS`, in dict insertion order. -/
def CLAUSE_PATTERNS : List (ClauseType × List RTok) :=
  [(.termination,
    [word "termination",
     word "terminate",
     rseq [.wb, rlit "expir", .alt (rlit "e") (rlit "ation"), .wb],
     rseq [.wb, rlit "end", .opt (rlit "ing"), spc, .alt (rlit "of") (rlit "this"),
           spc, rlit "agreement", .wb],
     rseq [.wb, rlit "notice", spc, .alt (rlit "of") (rlit "to"), spc,
           rlit "terminate", .wb],
     word "cancellation"]),
   (.liability,
    [word "liability",
     word "liable",
     rseq [.wb, rlit "indemnif", .alt (rlit "y") (rlit "ication"), .wb],
     rseq [.wb, rlit "hold", spc, rlit "harmless", .wb],
     word "damages",
     word "losses",
     rseq [.wb, rlit "limitation", spc, rlit "of", spc, rlit "liability", .wb],
     word "exculpation"]),
   (.payment,
    [word "payment",
     word "pay",
     word "compensation",
     rseq [.wb, rlit "fee", .opt (rlit "s"), .wb],
     word "salary",
     rseq [.wb, rlit "wage", .opt (rlit "s"), .wb],
     word "remuneration",
     word "invoice",
     rseq [.wb, chr '$', .plus isDigitChar],
     rseq [.wb, rlit "amount", spc, .alt (rlit "of") (rlit "due"), .wb]]),
   (.confidentiality,
    [rseq [.wb, rlit "confidential", .opt (rlit "ity"), .wb],
     word "non-disclosure",
     rseq [.wb, rlit "proprietary", spc, rlit "information", .wb],
     rseq [.wb, rlit "trade", spc, rlit "secret", .opt (rlit "s"), .wb],
     word "disclosure",
     word "secrecy"]),
   (.ip,
    [rseq [.wb, rlit "intellectual", spc, rlit "property", .wb],
     rseq [.wb, rlit "copyright", .opt (rlit "s"), .wb],
     rseq [.wb, rlit "patent", .opt (rlit "s"), .wb],
     rseq [.wb, rlit "trademark", .opt (rlit "s"), .wb],
     rseq [.wb, rlit "ownership", spc, rlit "of", spc, rlit "work", .wb],
     rseq [.wb, rlit "invention", .opt (rlit "s"), .wb],
     rseq [.wb, rlit "work", spc, rlit "product", .wb]]),
   (.non_compete,
    [word "non-compete",
     rseq [.wb, rlit "non", spc, rlit "compete", .wb],
     word "compete",
     rseq [.wb, rlit "restrictive", spc, rlit "covenant", .wb],
     word "non-solicitation",
     word "solicitation"])]

/-- The score the rule-based classifier assigns a clause type: the total number
of pattern-match occurrences over the type's patterns (0 for types without a
pattern table entry, i.e. `misc` and `unsure`). -/
def typeScore (textLower : PyStr) (t : ClauseType) : Nat :=
  match CLAUSE_PATTERNS.find? (fun e => e.1 == t) with
  | some e => (e.2.map (fun p => reCount p textLower)).sum
  | none => 0

/-- `_classify_with_rules(text)`. -/
def _classify_with_rules (text : PyStr) : ClauseType :=
  let textLower := pyLower text
  let scores := clauseTypeList.map (fun t => (t, typeScore textLower t))
  let maxScore := (scores.map (fun e => e.2)).foldl max 0
  if maxScore = 0 then .misc
  else
    match scores.find? (fun e => e.2 == maxScore) with
    | some e => e.1
    | none => .misc

/-- Label parsing inside `_classify_with_llm`: the first `ClauseType` whose
`value` occurs in the lower-cased response, else `misc`. -/
def parseLLMLabel (response : PyStr) : ClauseType :=
  let rl := pyLower response
  match clauseTypeList.find? (fun t => containsSub (clauseTypeValue t) rl) with
  | some t => t
  | none => .misc

/-- `classify_clause(text, use_llm)`.  `llmResponse` is the completion
capability: `.ok r` is the raw LLM response, `.error e` any exception raised by
`_classify_with_llm` (in which case the rule-based result stands). -/
def classify_clause (text : PyStr) (use_llm : Bool) (llmResponse : Except Err PyStr) :
    ClauseType :=
  let clause_type := _classify_with_rules text
  if use_llm && (clause_type == .unsure || clause_type == .misc) then
    match llmResponse with
    | .ok r => parseLLMLabel r
    | .error _ => clause_type
  else clause_type

/-!
`lexguard/risk/scoring.py`.
-/

/-- `score_to_level(score)`. -/
def score_to_level (score : ℚ) : RiskLevel :=
  if score < 33/100 then .low
  else if score < 66/100 then .medium
  else .high

/-- Base risk by clause type (`type_risk` table; `.get`'s `0.2` default is
unreachable since the table covers every member). -/
def baseRisk : ClauseType → ℚ
  | .liability => 6/10
  | .non_compete => 5/10
  | .termination => 4/10
  | .ip => 4/10
  | .confidentiality => 3/10
  | .payment => 2/10
  | .misc => 1/10
  | .unsure => 2/10

/-- `\bunlimited\b`. -/
def unlimitedPat : RTok := word "unlimited"

/-- `\bindemnif(?:y|ication)\b`. -/
def indemnifPat : RTok := rseq [.wb, rlit "indemnif", .alt (rlit "y") (rlit "ication"), .wb]

/-- `\bhold\s+harmless\b`. -/
def holdHarmlessPat : RTok := rseq [.wb, rlit "hold", spc, rlit "harmless", .wb]

/-- `\blimit(?:ed|ation)\b`. -/
def limitPat : RTok := rseq [.wb, rlit "limit", .alt (rlit "ed") (rlit "ation"), .wb]

/-- `\bimmediate(?:ly)?\b`. -/
def immediatePat : RTok := rseq [.wb, rlit "immediate", .opt (rlit "ly"), .wb]

/-- `\bwithout\s+cause\b`. -/
def withoutCausePat : RTok := rseq [.wb, rlit "without", spc, rlit "cause", .wb]

/-- `\bglobal(?:ly)?\b|\bworldwide\b`. -/
def globalPat : RTok :=
  .alt (rseq [.wb, rlit "global", .opt (rlit "ly"), .wb]) (word "worldwide")

/-- `\ball\s+(?:work|invention|creation)` (no trailing `\b` in the source). -/
def allWorkPat : RTok :=
  rseq [.wb, rlit "all", spc, .alt (rlit "work") (.alt (rlit "invention") (rlit "creation"))]

/-- `\bpre-existing\b`. -/
def preExistingPat : RTok := word "pre-existing"

/-- `\bno\s+(?:pay|compensation|salary)\b`. -/
def noPayPat : RTok :=
  rseq [.wb, rlit "no", spc, .alt (rlit "pay") (.alt (rlit "compensation") (rlit "salary")), .wb]

/-- `\bat\s+will\b`. -/
def atWillPat : RTok := rseq [.wb, rlit "at", spc, rlit "will", .wb]

/-- `\birrevocable\b`. -/
def irrevocablePat : RTok := word "irrevocable"

/-- `\bperpetual\b`. -/
def perpetualPat : RTok := word "perpetual"

/-- `\bwaive\b`. -/
def waivePat : RTok := word "waive"

/-- Append `(delta, reason)` to the accumulating `(score, reasons)` state when
`cond` holds (one `if re.search(...): score += ...; reasons.append(...)` step). -/
def addIf (cond : Bool) (delta : ℚ) (reason : PyStr) (st : ℚ × List PyStr) :
    ℚ × List PyStr :=
  if cond then (st.1 + delta, st.2 ++ [reason]) else st

/-- `_calculate_risk_score(clause)`: rule-based `(score, reasons)`. -/
def _calculate_risk_score (clause : Clause) : ℚ × List PyStr :=
  let text_lower := pyLower clause.text
  let st : ℚ × List PyStr := (baseRisk clause.clause_type, [])
  let st :=
    if clause.clause_type = .liability then
      let st := addIf (reSearch unlimitedPat text_lower) (2/10)
        (pstr "Contains \x27unlimited\x27 liability") st
      let st := addIf (reSearch indemnifPat text_lower) (15/100)
        (pstr "Includes indemnification obligations") st
      let st := addIf (reSearch holdHarmlessPat text_lower) (1/10)
        (pstr "Contains hold harmless clause") st
      addIf (!reSearch limitPat text_lower) (1/10)
        (pstr "No liability limitation mentioned") st
    else if clause.clause_type = .termination then
      let st :=
        match findNumberUnit [pstr "day", pstr "hour"] text_lower with
        | some days =>
          if days < 7 then
            (st.1 + 25/100,
             st.2 ++ [pstr "Very short notice period (" ++ natToStr days ++ pstr " days)"])
          else if days < 30 then
            (st.1 + 1/10,
             st.2 ++ [pstr "Short notice period (" ++ natToStr days ++ pstr " days)"])
          else st
        | none => st
      let st := addIf (reSearch immediatePat text_lower) (2/10)
        (pstr "Allows immediate termination") st
      addIf (reSearch withoutCausePat text_lower) (15/100)
        (pstr "Allows termination without cause") st
    else if clause.clause_type = .non_compete then
      let st :=
        match findNumberUnit [pstr "year", pstr "month"] text_lower with
        | some value =>
          let months := if containsSub (pstr "year") text_lower then value * 12 else value
          if 24 < months then
            (st.1 + 3/10,
             st.2 ++ [pstr "Very long non-compete duration (" ++ natToStr months
                      ++ pstr " months)"])
          else if 12 < months then
            (st.1 + 15/100,
             st.2 ++ [pstr "Long non-compete duration (" ++ natToStr months
                      ++ pstr " months)"])
          else st
        | none => st
      addIf (reSearch globalPat text_lower) (2/10) (pstr "Global or worldwide scope") st
    else if clause.clause_type = .ip then
      let st := addIf (reSearch allWorkPat text_lower) (15/100)
        (pstr "Broad IP assignment clause") st
      addIf (!reSearch preExistingPat text_lower) (1/10)
        (pstr "No mention of pre-existing IP") st
    else if clause.clause_type = .payment then
      let st := addIf (reSearch noPayPat text_lower) (4/10)
        (pstr "Unpaid or volunteer position") st
      addIf (reSearch atWillPat text_lower) (1/10) (pstr "At-will payment terms") st
    else st
  let st := addIf (reSearch irrevocablePat text_lower) (1/10)
    (pstr "Contains irrevocable terms") st
  let st := addIf (reSearch perpetualPat text_lower) (15/100)
    (pstr "Perpetual/indefinite terms") st
  let st := addIf (reSearch waivePat text_lower) (1/10) (pstr "Contains rights waiver") st
  let score := min st.1 1
  let reasons :=
    if st.2.isEmpty then
      [pstr "Standard " ++ clauseTypeValue clause.clause_type ++ pstr " clause"]
    else st.2
  (score, reasons)

/-- The `if use_llm: try ... except` block of `calculate_clause_risk`: on a
successful structured completion the blended score is `0.7*llm + 0.3*rules`
and LLM reasons are appended; on any exception the rule result stands. -/
def blendWithLLM (use_llm : Bool) (llmResult : Except Err (ℚ × List PyStr))
    (st : ℚ × List PyStr) : ℚ × List PyStr :=
  if use_llm then
    match llmResult with
    | .ok p => (7/10 * p.1 + 3/10 * st.1, st.2 ++ p.2)
    | .error _ => st
  else st

/-- `calculate_clause_risk(clause, use_llm)`.  `llmResult` is the structured
completion capability inside `_calculate_risk_with_llm`: `.ok (score, reasons)`
a successful structured completion, `.error e` any exception raised by the
enhancement path (which is caught, the rule-only result standing).  Returns the
clause with its risk fields updated, paired with the `ClauseRisk`. -/
def calculate_clause_risk (clause : Clause) (use_llm : Bool)
    (llmResult : Except Err (ℚ × List PyStr)) : Clause × ClauseRisk :=
  let st := _calculate_risk_score clause
  let st := blendWithLLM use_llm llmResult st
  let level := score_to_level st.1
  ({ clause with risk_score := some st.1, risk_level := some level },
   { clause_id := clause.id, score := st.1, level := level,
     reasons := st.2, recommendations := [] })

/-!
`lexguard/nlp/chunker.py`.
-/

/-- `[ivx]` with `re.IGNORECASE`. -/
def isRomanChar (c : Char) : Bool :=
  c = 'i' || c = 'v' || c = 'x' || c = 'I' || c = 'V' || c = 'X'

/-- `[a-z]` with `re.IGNORECASE`. -/
def isLetterAZ (c : Char) : Bool := isCasedChar c

/-- The section-marker alternation of the chunker pattern:
`\d+\.(?:\d+\.?)?|[a-z]\)|[ivx]+\)|\([ivx]+\)|\([a-z]\)`. -/
def markerCore : RTok :=
  .alt (rseq [.plus isDigitChar, chr '.', .opt (rseq [.plus isDigitChar, .opt (chr '.')])])
   (.alt (rseq [.cls isLetterAZ, chr ')'])
    (.alt (rseq [.plus isRomanChar, chr ')'])
     (.alt (rseq [chr '(', .plus isRomanChar, chr ')'])
           (rseq [chr '(', .cls isLetterAZ, chr ')']))))

/-- The marker followed by `\s+`. -/
def markerSpace : RTok := .seq markerCore (.plus isPySpace)

/-- Length consumed by `markerSpace` matching at the start of `s` (Python's
first-preference match), if any.  The pattern contains no `\b`, so the
preceding character is irrelevant. -/
def markerMatchLen (s : PyStr) : Option Nat :=
  match (reOutcomes markerSpace s none).head? with
  | some o => some (s.length - o.1.length)
  | none => none

/-- Total characters the full pattern `(?:^|\n)marker\s+` consumes when it
matches at the current position: `^` is tried first when the position is at a
line start (`re.MULTILINE`), then a literal `\n`. -/
def markerHere (s : PyStr) (atLineStart : Bool) : Option Nat :=
  match (if atLineStart then markerMatchLen s else none) with
  | some n => some n
  | none =>
    match s with
    | '\n' :: t => (markerMatchLen t).map (fun n => n + 1)
    | _ => none

/-- `pattern.finditer(text)` start positions for the chunker pattern:
left-to-right scan, resuming after each match's end.  `i` is the current
position, `prev` the character before it. -/
def markerStartsFuel : Nat → PyStr → Nat → Option Char → List Nat
  | 0, _, _, _ => []
  | _, [], _, _ => []
  | fuel + 1, c :: t, i, prev =>
    match markerHere (c :: t) ((i == 0) || (prev == some '\n')) with
    | some n =>
      if 0 < n ∧ n ≤ (c :: t).length then
        i :: markerStartsFuel fuel ((c :: t).drop n) (i + n) (((c :: t).take n).getLast?)
      else i :: markerStartsFuel fuel t (i + 1) (some c)
    | none => markerStartsFuel fuel t (i + 1) (some c)

/-- All `match.start()` positions of the chunker pattern in `text` (fuelled
structural recursion; every step shortens the input, so `length + 1` fuel
always suffices). -/
def markerStarts (text : PyStr) : List Nat :=
  markerStartsFuel (text.length + 1) text 0 none

/-- `_split_by_numbered_sections(text)`. -/
def _split_by_numbered_sections (text : PyStr) : List PyStr :=
  let positions := markerStarts text
  if positions.isEmpty then [text]
  else
    let ends := positions.drop 1 ++ [text.length]
    let clauses := (positions.zip ends).map (fun p => (text.take p.2).drop p.1)
    if clauses.isEmpty then [text] else clauses

/-- `re.split(r"\n{2,}", text)`: split at each maximal run of two or more
newlines.  `cur` holds the current segment's characters in reverse (fuelled
structural recursion; every step shortens the input, so `length + 1` fuel
always suffices). -/
def splitParaFuel : Nat → PyStr → PyStr → List PyStr
  | 0, cur, _ => [cur.reverse]
  | _, cur, [] => [cur.reverse]
  | fuel + 1, cur, c :: t =>
    if c = '\n' && t.head? == some '\n' then
      cur.reverse :: splitParaFuel fuel [] ((t.drop 1).dropWhile (fun x => x == '\n'))
    else splitParaFuel fuel (c :: cur) t

/-- `_split_by_paragraphs(text)`. -/
def _split_by_paragraphs (text : PyStr) : List PyStr :=
  ((splitParaFuel (text.length + 1) [] text).map pyStrip).filter (fun p => !p.isEmpty)

/-- `_is_likely_header(text)`. -/
def _is_likely_header (text : PyStr) : Bool :=
  let t := pyStrip text
  (decide (t.length < 100) && pyIsUpper t) ||
  (decide (t.length < 80) && !t.contains '\n' && !pyEndsWith t '.')

/-- The clean-and-filter loop at the end of `split_into_clauses`: each clause
is stripped, then dropped when shorter than `min_length` or header-like. -/
def cleanClauses (min_length : Int) : List PyStr → List PyStr
  | [] => []
  | c :: rest =>
    if ((pyStrip c).length : Int) < min_length then cleanClauses min_length rest
    else if _is_likely_header (pyStrip c) then cleanClauses min_length rest
    else pyStrip c :: cleanClauses min_length rest

/-- `split_into_clauses(text, min_length)`. -/
def split_into_clauses (text : PyStr) (min_length : Int) : List PyStr :=
  let clauses := _split_by_numbered_sections text
  let clauses := if clauses.length ≤ 1 then _split_by_paragraphs text else clauses
  cleanClauses min_length clauses

/-!
`lexguard/nlp/vector_store.py`.  The ChromaDB collection itself is an external
dependency (not under `src/`), so it is modelled from the spec.
-/

/-- The metadata bag written per entry. -/
structure EntryMetadata : Type where
  contract_id : PyStr
  clause_type : PyStr
  index : Int
  risk_level : PyStr
deriving DecidableEq

/-- One stored (id, vector, document, metadata) tuple. -/
structure IndexEntry : Type where
  id : PyStr
  embedding : List ℚ
  document : PyStr
  metadata : EntryMetadata
deriving DecidableEq

/-- The collection state: its list of entries. -/
abbrev Collection := List IndexEntry

/-- Modelled from the spec: ChromaDB `collection.upsert` (external library) —
for each incoming entry, overwrite the stored entry with the same id, else
append it. -/
def collectionUpsert (coll : Collection) (entries : List IndexEntry) : Collection :=
  entries.foldl
    (fun acc e =>
      if acc.any (fun x => x.id == e.id) then
        acc.map (fun x => if x.id == e.id then e else x)
      else acc ++ [e])
    coll

/-- Squared L2 distance (ChromaDB's default metric). -/
def sqDist (a b : List ℚ) : ℚ := ((a.zip b).map (fun p => (p.1 - p.2) ^ 2)).sum

/-- Insert into a list sorted by ascending distance. -/
def insertByDist (x : IndexEntry × ℚ) : List (IndexEntry × ℚ) → List (IndexEntry × ℚ)
  | [] => [x]
  | y :: t => if x.2 ≤ y.2 then x :: y :: t else y :: insertByDist x t

/-- Insertion sort by ascending distance. -/
def sortByDist : List (IndexEntry × ℚ) → List (IndexEntry × ℚ)
  | [] => []
  | x :: t => insertByDist x (sortByDist t)

/-- Modelled from the spec: ChromaDB `collection.query` with a metadata
equality filter (external library) — the `k` stored entries nearest to the
query embedding among those whose `contract_id` metadata matches, ranked by
ascending distance. -/
def collectionQuery (coll : Collection) (queryEmbedding : List ℚ) (k : Nat)
    (contractId : PyStr) : List (IndexEntry × ℚ) :=
  let filtered := coll.filter (fun e => e.metadata.contract_id == contractId)
  (sortByDist (filtered.map (fun e => (e, sqDist e.embedding queryEmbedding)))).take k

/-- `VectorStore.upsert_clauses(contract_id, clauses)`. -/
def upsert_clauses (coll : Collection) (_contract_id : PyStr) (clauses : List Clause) :
    Collection :=
  if clauses.isEmpty then coll
  else
    let texts := clauses.map (fun c => c.text)
    let embeddings := get_embeddings_batch texts
    let entries := (clauses.zip embeddings).map (fun p =>
      ({ id := p.1.id, embedding := p.2, document := p.1.text,
         metadata :=
           { contract_id := p.1.contract_id,
             clause_type := clauseTypeValue p.1.clause_type,
             index := p.1.index,
             risk_level := match p.1.risk_level with
                           | some l => riskLevelValue l
                           | none => pstr "unknown" } } : IndexEntry))
    collectionUpsert coll entries

/-- One formatted result of `VectorStore.search_similar`. -/
structure SearchResult : Type where
  id : PyStr
  text : PyStr
  metadata : EntryMetadata
  distance : ℚ
deriving DecidableEq

/-- `VectorStore.search_similar(contract_id, query, k)`. -/
def search_similar (coll : Collection) (contract_id : PyStr) (query : PyStr)
    (k : Nat) : List SearchResult :=
  let query_embedding := get_embedding query
  let results := collectionQuery coll query_embedding k contract_id
  results.map (fun p =>
    { id := p.1.id, text := p.1.document, metadata := p.1.metadata, distance := p.2 })

/-!
`backend/routes/chat.py`: the answer-composition logic of `chat_with_contract`
(everything after retrieval) and `_build_rule_based_chat_answer`.
-/

/-- One entry of `relevant_clauses` (the dict with keys id/text/type/risk_level). -/
structure RelevantClause : Type where
  id : PyStr
  text : PyStr
  type : PyStr
  risk_level : PyStr
deriving DecidableEq

/-- `any(word in question_lower for word in [...])`. -/
def anyWordIn (ql : PyStr) (ws : List PyStr) : Bool := ws.any (fun w => containsSub w ql)

/-- `text[:n] + "..." if len(text) > n else text`. -/
def snippet (n : Nat) (text : PyStr) : PyStr :=
  if n < text.length then text.take n ++ pstr "..." else text

/-- `"".join(parts)`. -/
def joinParts (l : List PyStr) : PyStr := l.foldr (fun a b => a ++ b) []

/-- The closing tip appended to every rule-based answer. -/
def chatTip : PyStr :=
  pstr "💡 **Tip**: Review the full clause text in the \x27Clause Analysis\x27 tab for complete details. Download the PDF report for a comprehensive analysis."

/-- `_build_rule_based_chat_answer(question, clauses)`. -/
def _build_rule_based_chat_answer (question : PyStr) (clauses : List RelevantClause) :
    PyStr :=
  if clauses.isEmpty then
    pstr "I couldn\x27t find relevant clauses to answer your question. Try rephrasing or ask about specific topics like termination, liability, payment, or obligations."
  else
    let question_lower := pyLower question
    let answer_parts :=
      if anyWordIn question_lower
          [pstr "obligation", pstr "responsibilit", pstr "duty", pstr "must",
           pstr "required", pstr "deliverable"] then
        let sel := clauses.filter (fun c =>
          containsSub (pstr "obligation") (pyLower c.text) ||
          (c.type == pstr "payment" || c.type == pstr "termination" ||
           c.type == pstr "confidentiality"))
        let sel := if sel.isEmpty then clauses.take 3 else sel
        [pstr "**Based on the contract clauses, here are the key obligations:**\n\n"] ++
        (sel.take 5).enum.map (fun p =>
          natToStr (p.1 + 1) ++ pstr ". **" ++ pyTitle (replaceUnderscore p.2.type) ++
          pstr "**: " ++ snippet 300 (pyStrip p.2.text) ++ pstr "\n")
      else if anyWordIn question_lower
          [pstr "payment", pstr "fee", pstr "cost", pstr "price", pstr "amount",
           pstr "due", pstr "refund"] then
        let sel := clauses.filter (fun c =>
          c.type == pstr "payment" ||
          anyWordIn (pyLower c.text)
            [pstr "payment", pstr "fee", pstr "cost", pstr "amount", pstr "$"])
        let sel := if sel.isEmpty then clauses.take 3 else sel
        [pstr "**Payment and Financial Terms:**\n\n"] ++
        (sel.take 5).enum.map (fun p =>
          natToStr (p.1 + 1) ++ pstr ". " ++ snippet 350 (pyStrip p.2.text) ++ pstr "\n")
      else if anyWordIn question_lower
          [pstr "terminat", pstr "end", pstr "cancel", pstr "exit", pstr "leave",
           pstr "notice period"] then
        let sel := clauses.filter (fun c =>
          c.type == pstr "termination" ||
          anyWordIn (pyLower c.text)
            [pstr "terminat", pstr "cancel", pstr "end", pstr "notice"])
        let sel := if sel.isEmpty then clauses.take 3 else sel
        [pstr "**Termination and Exit Conditions:**\n\n"] ++
        (sel.take 5).enum.map (fun p =>
          natToStr (p.1 + 1) ++ pstr ". " ++ snippet 350 (pyStrip p.2.text) ++ pstr "\n")
      else if anyWordIn question_lower
          [pstr "liability", pstr "indemnif", pstr "damage", pstr "risk",
           pstr "responsible"] then
        let sel := clauses.filter (fun c =>
          c.type == pstr "liability" ||
          (c.risk_level == pstr "high" || c.risk_level == pstr "medium") ||
          anyWordIn (pyLower c.text)
            [pstr "liability", pstr "indemnif", pstr "damage"])
        let sel := if sel.isEmpty then clauses.take 3 else sel
        [pstr "**Liability and Risk Assessment:**\n\n"] ++
        (sel.take 5).enum.map (fun p =>
          natToStr (p.1 + 1) ++ pstr ". **" ++ pyTitle (replaceUnderscore p.2.type) ++
          pstr "** (Risk: " ++ pyUpper p.2.risk_level ++ pstr "): " ++
          snippet 300 (pyStrip p.2.text) ++ pstr "\n")
      else if anyWordIn question_lower
          [pstr "date", pstr "deadline", pstr "duration", pstr "term", pstr "when",
           pstr "time", pstr "period"] then
        let sel := clauses.filter (fun c =>
          anyWordIn (pyLower c.text)
            [pstr "date", pstr "deadline", pstr "duration", pstr "term",
             pstr "period", pstr "day", pstr "month", pstr "year"])
        let sel := if sel.isEmpty then clauses.take 3 else sel
        [pstr "**Important Dates and Timeframes:**\n\n"] ++
        (sel.take 5).enum.map (fun p =>
          natToStr (p.1 + 1) ++ pstr ". " ++ snippet 350 (pyStrip p.2.text) ++ pstr "\n")
      else if anyWordIn question_lower
          [pstr "intellectual property", pstr "ip", pstr "copyright", pstr "patent",
           pstr "ownership"] then
        let sel := clauses.filter (fun c =>
          c.type == pstr "ip" ||
          anyWordIn (pyLower c.text)
            [pstr "intellectual", pstr "copyright", pstr "patent", pstr "ownership"])
        let sel := if sel.isEmpty then clauses.take 3 else sel
        [pstr "**Intellectual Property Terms:**\n\n"] ++
        (sel.take 5).enum.map (fun p =>
          natToStr (p.1 + 1) ++ pstr ". " ++ snippet 350 (pyStrip p.2.text) ++ pstr "\n")
      else
        [pstr "**Relevant Contract Clauses:**\n\n"] ++
        (clauses.take 5).enum.map (fun p =>
          natToStr (p.1 + 1) ++ pstr ". **" ++ pyTitle (replaceUnderscore p.2.type) ++
          pstr "** (" ++ p.2.risk_level ++ pstr " risk): " ++
          snippet 280 (pyStrip p.2.text) ++ pstr "\n")
    joinParts (answer_parts ++ [pstr "\n---\n", chatTip])

/-- The chat endpoint's response body. -/
structure ChatResponse : Type where
  answer : PyStr
  relevant_clauses : List RelevantClause
deriving DecidableEq

/-- Answer composition in `chat_with_contract` after retrieval: the empty-result
early return, the `relevant_clauses` construction, and the LLM attempt with
rule-based fallback.  `llm` is the completion capability (`.error` models the
LLM being disabled or failing; the prompt/context string only feeds the
capability and does not influence the fallback). -/
def composeChatAnswer (query : PyStr) (search_results : List SearchResult)
    (llm : Except Err PyStr) : ChatResponse :=
  if search_results.isEmpty then
    { answer := pstr "I couldn\x27t find relevant clauses to answer your question. Try rephrasing or ask about specific topics like termination, liability, or payment.",
      relevant_clauses := [] }
  else
    let relevant_clauses := search_results.map (fun r =>
      ({ id := r.id,
         text := if 200 < r.text.length then r.text.take 200 ++ pstr "..." else r.text,
         type := r.metadata.clause_type,
         risk_level := r.metadata.risk_level } : RelevantClause))
    match llm with
    | .ok answer => { answer := answer, relevant_clauses := relevant_clauses }
    | .error _ =>
      { answer := _build_rule_based_chat_answer query relevant_clauses,
        relevant_clauses := relevant_clauses }

/-!
`lexguard/storage/file_store.py` and the backend routes
(`backend/routes/upload.py`, `backend/routes/contract.py`).
-/

/-- The contract file store: one JSON file per contract id. -/
abbrev ContractStore := List Contract

/-- `load_contract(contract_id)`. -/
def load_contract (store : ContractStore) (contract_id : PyStr) : Option Contract :=
  store.find? (fun c => c.id == contract_id)

/-- `save_contract(contract)`: writes `<id>.json`, overwriting the stored
contract with that id or creating it. -/
def save_contract (store : ContractStore) (contract : Contract) : ContractStore :=
  if store.any (fun c => c.id == contract.id) then
    store.map (fun c => if c.id == contract.id then contract else c)
  else store ++ [contract]

/-- An HTTP error raised by a route. -/
inductive HttpError : Type where
  | notFound (detail : PyStr)
deriving DecidableEq

/-- The clause-processing loop of `upload_contract` (upload.py lines 115-142):
classify each segmented clause text (rules only), build the `Clause`, score it
with `use_llm=False`, and copy the risk score/level onto it (negotiation
suggestions only fill `risk.recommendations` and never touch the clause). -/
def processUploadClauses (contract_id : PyStr) (clause_texts : List PyStr) :
    List Clause :=
  clause_texts.enum.map (fun p =>
    let clause_type := classify_clause p.2 false (.error [])
    let clause : Clause :=
      { id := contract_id ++ pstr "_clause_" ++ natToStr p.1,
        contract_id := contract_id, index := (p.1 : Int), text := p.2,
        clause_type := clause_type }
    let res := calculate_clause_risk clause false (.error [])
    { res.1 with risk_score := some res.2.score, risk_level := some res.2.level })

/-- `analyze_clause(contract_id, clause_id, request)` (contract.py lines
273-318): load the contract, find the clause, update its text, re-classify
(`classify_clause(request.text)`, rules only), re-score with `use_llm=True`
(`llmRisk` is the structured-completion capability), and save the contract.
The route never touches the vector store, so the collection is not part of its
state.  Returns the updated store and clause. -/
def analyze_clause (store : ContractStore) (contract_id clause_id : PyStr)
    (newText : PyStr) (llmRisk : Except Err (ℚ × List PyStr)) :
    Except HttpError (ContractStore × Clause) :=
  match load_contract store contract_id with
  | none => .error (.notFound (pstr "Contract not found"))
  | some contract =>
    match contract.clauses.find? (fun c => c.id == clause_id) with
    | none => .error (.notFound (pstr "Clause not found"))
    | some target =>
      let target := { target with text := newText }
      let target := { target with clause_type := classify_clause newText false (.error []) }
      let target := (calculate_clause_risk target true llmRisk).1
      let contract := { contract with
        clauses := contract.clauses.map (fun c => if c.id == clause_id then target else c) }
      .ok (save_contract store contract, target)

/-!
Theorems for the claims.
-/

/-- Claim C2: `score_to_level` returns `low` iff score < 0.33, `medium` iff
0.33 ≤ score < 0.66, `high` iff score ≥ 0.66, with the stated boundary values
0.32 → low, 0.33 → medium, 0.65 → medium, 0.66 → high. -/
theorem claim_C2_score_to_level :
    (∀ s : ℚ,
      (score_to_level s = .low ↔ s < 33/100) ∧
      (score_to_level s = .medium ↔ 33/100 ≤ s ∧ s < 66/100) ∧
      (score_to_level s = .high ↔ 66/100 ≤ s)) ∧
    score_to_level (32/100) = .low ∧
    score_to_level (33/100) = .medium ∧
    score_to_level (65/100) = .medium ∧
    score_to_level (66/100) = .high := by
  refine ⟨fun s => ?_, by norm_num [score_to_level], by norm_num [score_to_level],
    by norm_num [score_to_level], by norm_num [score_to_level]⟩
  unfold score_to_level
  split_ifs with h1 h2
  · refine ⟨⟨fun _ => h1, fun _ => rfl⟩, ⟨fun hc => ?_, fun hc => ?_⟩,
      ⟨fun hc => ?_, fun hc => ?_⟩⟩
    · cases hc
    · exact absurd hc.1 (not_le.mpr h1)
    · cases hc
    · exact absurd hc (not_le.mpr (by linarith))
  · refine ⟨⟨fun hc => ?_, fun hc => ?_⟩, ⟨fun _ => ⟨le_of_not_lt h1, h2⟩, fun _ => rfl⟩,
      ⟨fun hc => ?_, fun hc => ?_⟩⟩
    · cases hc
    · exact absurd hc h1
    · cases hc
    · exact absurd hc (not_le.mpr h2)
  · refine ⟨⟨fun hc => ?_, fun hc => ?_⟩, ⟨fun hc => ?_, fun hc => ?_⟩,
      ⟨fun _ => le_of_not_lt h2, fun _ => rfl⟩⟩
    · cases hc
    · exact absurd hc h1
    · cases hc
    · exact absurd hc.2 h2

/-- Claim C5: when the completion capability raises, `classify_clause` with
escalation enabled returns the rule-based type, and `calculate_clause_risk`
with LLM enhancement enabled returns the rule-only (score, reasons) result;
neither propagates the exception (both are total functions of the `Except`
outcome). -/
theorem claim_C5_enhancement_failures_swallowed :
    (∀ (text : PyStr) (e : Err),
       classify_clause text true (.error e) = _classify_with_rules text) ∧
    (∀ (clause : Clause) (e : Err),
       calculate_clause_risk clause true (.error e)
         = calculate_clause_risk clause false (.error e) ∧
       (calculate_clause_risk clause true (.error e)).2.score
         = (_calculate_risk_score clause).1 ∧
       (calculate_clause_risk clause true (.error e)).2.reasons
         = (_calculate_risk_score clause).2) := by
  constructor
  · intro text e
    unfold classify_clause
    cases hb : (_classify_with_rules text == ClauseType.unsure
        || _classify_with_rules text == ClauseType.misc) <;> simp [hb]
  · intro clause e
    have htrue : ∀ st, blendWithLLM true (.error e) st = st := fun _ => rfl
    have hfalse : ∀ st, blendWithLLM false (.error e) st = st := fun _ => rfl
    simp only [calculate_clause_risk, htrue, hfalse]
    exact ⟨trivial, trivial, trivial⟩

/-- Claim C9: composing an answer from an empty set of retrieved results
always returns the constant apologetic string (both in the handler's
empty-result early return and in the rule-based builder), independent of the
query and the LLM capability, and never raises (both are total functions). -/
theorem claim_C9_empty_results_apology :
    (∀ (query : PyStr) (llm : Except Err PyStr),
       composeChatAnswer query [] llm =
         { answer := pstr "I couldn\x27t find relevant clauses to answer your question. Try rephrasing or ask about specific topics like termination, liability, or payment.",
           relevant_clauses := [] }) ∧
    (∀ question : PyStr,
       _build_rule_based_chat_answer question [] =
         pstr "I couldn\x27t find relevant clauses to answer your question. Try rephrasing or ask about specific topics like termination, liability, payment, or obligations.") :=
  ⟨fun _ _ => rfl, fun _ => rfl⟩

/-- Claim C10: the pure fallback vectorizer is exactly deterministic (equal
input texts give equal vectors) and always returns a vector of exactly the
collection's fixed dimensionality 384, built from character-frequency
features, common-word-frequency features and a SHA-256-derived tail, padded
and truncated to that length. -/
theorem claim_C10_fallback_vectorizer :
    (∀ t₁ t₂ : PyStr, t₁ = t₂ → _get_simple_embedding t₁ = _get_simple_embedding t₂) ∧
    (∀ text : PyStr, (_get_simple_embedding text).length = 384) := by
  refine ⟨fun t₁ t₂ h => by rw [h], fun text => ?_⟩
  have h : ∀ l : List ℚ, ((l ++ List.replicate (384 - l.length) 0).take 384).length = 384 := by
    intro l
    simp only [List.length_take, List.length_append, List.length_replicate]
    omega
  exact h _

/-- Witness for C10 at the concrete text `"abc"`. -/
theorem claim_C10_witness :
    _get_simple_embedding (pstr "abc") = _get_simple_embedding (pstr "abc") :=
  claim_C10_fallback_vectorizer.1 (pstr "abc") (pstr "abc") rfl

theorem cleanClauses_mem_length (n : Int) :
    ∀ (l : List PyStr) (c : PyStr), c ∈ cleanClauses n l → n ≤ (c.length : Int)
  | [], c, hc => by simp [cleanClauses] at hc
  | x :: t, c, hc => by
    unfold cleanClauses at hc
    split at hc
    · exact cleanClauses_mem_length n t c hc
    · split at hc
      · exact cleanClauses_mem_length n t c hc
      · rcases List.mem_cons.mp hc with h | h
        · subst h
          omega
        · exact cleanClauses_mem_length n t c h

/-- Claim C3: segmenting the empty string yields the empty sequence for every
`min_length`, and every clause returned by `split_into_clauses` has length at
least `min_length`. -/
theorem claim_C3_segmentation :
    (∀ n : Int, split_into_clauses [] n = []) ∧
    (∀ (text : PyStr) (n : Int) (c : PyStr),
       c ∈ split_into_clauses text n → n ≤ (c.length : Int)) := by
  refine ⟨fun n => rfl, fun text n c hc => ?_⟩
  unfold split_into_clauses at hc
  exact cleanClauses_mem_length n _ c hc

/-- Witness for C3 at a concrete text and minimum length. -/
theorem claim_C3_witness :
    (10 : Int) ≤ ((pstr "this is a long clause that ends with a period.").length : Int) :=
  claim_C3_segmentation.2 (pstr "this is a long clause that ends with a period.") 10
    (pstr "this is a long clause that ends with a period.") (by decide)

/-- Claim C4: rule-based classification returns `misc` whenever no keyword
pattern of any clause type matches the lower-cased text (all type scores 0),
and whenever exactly one type has a positive match-occurrence total (all other
types scoring 0) it returns that type. -/
theorem claim_C4_rule_classification (text : PyStr) :
    ((∀ t : ClauseType, typeScore (pyLower text) t = 0) →
       _classify_with_rules text = .misc) ∧
    (∀ T : ClauseType, 0 < typeScore (pyLower text) T →
       (∀ U : ClauseType, U ≠ T → typeScore (pyLower text) U = 0) →
       _classify_with_rules text = T) := by
  constructor
  · intro h
    unfold _classify_with_rules
    simp only [clauseTypeList, List.map_cons, List.map_nil, h]
    norm_num
  · intro T h1 h2
    have hne : typeScore (pyLower text) T ≠ 0 := by omega
    unfold _classify_with_rules
    cases T
    · simp [clauseTypeList, h2 .liability (by decide), h2 .payment (by decide),
        h2 .confidentiality (by decide), h2 .ip (by decide), h2 .non_compete (by decide),
        h2 .misc (by decide), h2 .unsure (by decide), hne, Ne.symm hne]
    · simp [clauseTypeList, h2 .termination (by decide), h2 .payment (by decide),
        h2 .confidentiality (by decide), h2 .ip (by decide), h2 .non_compete (by decide),
        h2 .misc (by decide), h2 .unsure (by decide), hne, Ne.symm hne]
    · simp [clauseTypeList, h2 .termination (by decide), h2 .liability (by decide),
        h2 .confidentiality (by decide), h2 .ip (by decide), h2 .non_compete (by decide),
        h2 .misc (by decide), h2 .unsure (by decide), hne, Ne.symm hne]
    · simp [clauseTypeList, h2 .termination (by decide), h2 .liability (by decide),
        h2 .payment (by decide), h2 .ip (by decide), h2 .non_compete (by decide),
        h2 .misc (by decide), h2 .unsure (by decide), hne, Ne.symm hne]
    · simp [clauseTypeList, h2 .termination (by decide), h2 .liability (by decide),
        h2 .payment (by decide), h2 .confidentiality (by decide),
        h2 .non_compete (by decide), h2 .misc (by decide), h2 .unsure (by decide),
        hne, Ne.symm hne]
    · simp [clauseTypeList, h2 .termination (by decide), h2 .liability (by decide),
        h2 .payment (by decide), h2 .confidentiality (by decide), h2 .ip (by decide),
        h2 .misc (by decide), h2 .unsure (by decide), hne, Ne.symm hne]
    · exact absurd h1 (by simp [typeScore, CLAUSE_PATTERNS])
    · exact absurd h1 (by simp [typeScore, CLAUSE_PATTERNS])

/-- Witness for C4: a no-match text classifies as `misc`, and a text matching
only confidentiality patterns classifies as `confidentiality`. -/
theorem claim_C4_witness :
    _classify_with_rules (pstr "zzz qqq www") = .misc ∧
    _classify_with_rules (pstr "the confidential files") = .confidentiality :=
  ⟨(claim_C4_rule_classification (pstr "zzz qqq www")).1 (by decide),
   (claim_C4_rule_classification (pstr "the confidential files")).2 .confidentiality
     (by decide) (by decide)⟩

/-- The months value the non-compete branch derives: the `(\d+)\s*(?:year|month)`
group value, multiplied by 12 exactly when `"year"` occurs anywhere in the
lower-cased text (as the source does). -/
def noncompeteDurationMonths (text_lower : PyStr) : Option Nat :=
  (findNumberUnit [pstr "year", pstr "month"] text_lower).map
    (fun value => if containsSub (pstr "year") text_lower then value * 12 else value)

set_option maxHeartbeats 1000000 in
/-- Claim C6: for a non-compete clause the rule score applies at most one
duration adjustment — +0.3 when the normalized duration exceeds 24 months,
+0.15 when it exceeds 12 but not 24, none otherwise — plus +0.2 when
global/worldwide wording is present (with the cross-type flags and the final
clamp to 1). -/
theorem claim_C6_noncompete_duration (clause : Clause)
    (h : clause.clause_type = .non_compete) :
    (_calculate_risk_score clause).1 =
      min ((5 : ℚ)/10
        + (match noncompeteDurationMonths (pyLower clause.text) with
           | some months =>
             if 24 < months then (3 : ℚ)/10 else if 12 < months then (15 : ℚ)/100 else 0
           | none => 0)
        + (if reSearch globalPat (pyLower clause.text) then (2 : ℚ)/10 else 0)
        + ((if reSearch irrevocablePat (pyLower clause.text) then (1 : ℚ)/10 else 0)
         + (if reSearch perpetualPat (pyLower clause.text) then (15 : ℚ)/100 else 0)
         + (if reSearch waivePat (pyLower clause.text) then (1 : ℚ)/10 else 0))) 1 := by
  unfold _calculate_risk_score noncompeteDurationMonths
  rw [h]
  simp only [baseRisk, addIf, reduceCtorEq, if_false, if_true]
  norm_num
  cases hfu : findNumberUnit [pstr "year", pstr "month"] (pyLower clause.text) with
  | none =>
    simp only [Option.map_none']
    split_ifs <;> norm_num
  | some value =>
    simp only [Option.map_some']
    split_ifs <;> norm_num

/-- Witness for C6 at a concrete non-compete clause (3 years, worldwide:
0.5 + 0.3 + 0.2 clamped to 1). -/
theorem claim_C6_witness :
    (_calculate_risk_score
      { id := pstr "w", contract_id := pstr "w", index := 0,
        text := pstr "shall not compete for 3 years worldwide",
        clause_type := .non_compete }).1 = 1 := by
  rw [claim_C6_noncompete_duration _ rfl]
  with_unfolding_all decide

/-- Claim C8: every operation assigning a clause's risk fields preserves
`risk_level = score_to_level risk_score`: after `calculate_clause_risk` (with
or without LLM enhancement, whatever the capability outcome) and after the
upload pipeline's clause processing, a clause with both fields present
satisfies the invariant. -/
theorem claim_C8_level_invariant :
    (∀ (clause : Clause) (use_llm : Bool) (llm : Except Err (ℚ × List PyStr))
       (s : ℚ) (l : RiskLevel),
       (calculate_clause_risk clause use_llm llm).1.risk_score = some s →
       (calculate_clause_risk clause use_llm llm).1.risk_level = some l →
       l = score_to_level s) ∧
    (∀ (contract_id : PyStr) (texts : List PyStr) (c : Clause) (s : ℚ) (l : RiskLevel),
       c ∈ processUploadClauses contract_id texts →
       c.risk_score = some s → c.risk_level = some l → l = score_to_level s) := by
  constructor
  · intro clause use_llm llm s l hs hl
    simp only [calculate_clause_risk] at hs hl
    have hs2 := Option.some_inj.mp hs
    have hl2 := Option.some_inj.mp hl
    subst hs2
    exact hl2.symm
  · intro contract_id texts c s l hc hs hl
    obtain ⟨p, _, rfl⟩ := List.mem_map.mp hc
    simp only [calculate_clause_risk] at hs hl
    have hs2 := Option.some_inj.mp hs
    have hl2 := Option.some_inj.mp hl
    subst hs2
    exact hl2.symm

/-- Witness for C8: a liability clause scored with the LLM path failing
(score 1, level high), and an upload-processed miscellaneous clause
(score 0.1, level low). -/
theorem claim_C8_witness :
    RiskLevel.high = score_to_level 1 ∧ RiskLevel.low = score_to_level (1/10) := by
  constructor
  · exact claim_C8_level_invariant.1
      { id := pstr "w", contract_id := pstr "w", index := 0,
        text := pstr "unlimited liability and shall indemnify the company",
        clause_type := .liability }
      true (.error []) 1 .high (by with_unfolding_all decide)
      (by with_unfolding_all decide)
  · exact claim_C8_level_invariant.2 (pstr "c1") [pstr "zzz qqq"]
      { id := pstr "c1_clause_0", contract_id := pstr "c1", index := 0,
        text := pstr "zzz qqq", clause_type := .misc,
        risk_score := some (1/10), risk_level := some .low }
      (1/10) .low (by with_unfolding_all decide) (by with_unfolding_all decide)
      (by with_unfolding_all decide)

theorem mem_insertByDist (x y : IndexEntry × ℚ) (l : List (IndexEntry × ℚ)) :
    y ∈ insertByDist x l ↔ y = x ∨ y ∈ l := by
  induction l with
  | nil => simp [insertByDist]
  | cons a t ih =>
    simp only [insertByDist]
    split
    · simp [List.mem_cons]
    · simp only [List.mem_cons, ih]
      tauto

theorem sorted_insertByDist (x : IndexEntry × ℚ) (l : List (IndexEntry × ℚ))
    (h : l.Pairwise (fun a b => a.2 ≤ b.2)) :
    (insertByDist x l).Pairwise (fun a b => a.2 ≤ b.2) := by
  induction l with
  | nil => simp [insertByDist]
  | cons a t ih =>
    rcases List.pairwise_cons.mp h with ⟨ha, ht⟩
    simp only [insertByDist]
    split
    · refine List.pairwise_cons.mpr ⟨?_, h⟩
      intro b hb
      rcases List.mem_cons.mp hb with rfl | hbt
      · assumption
      · exact le_trans (by assumption) (ha b hbt)
    · refine List.pairwise_cons.mpr ⟨?_, ih ht⟩
      intro b hb
      rcases (mem_insertByDist x b t).mp hb with rfl | hbt
      · exact le_of_not_le (by assumption)
      · exact ha b hbt

theorem mem_sortByDist (y : IndexEntry × ℚ) (l : List (IndexEntry × ℚ)) :
    y ∈ sortByDist l ↔ y ∈ l := by
  induction l with
  | nil => simp [sortByDist]
  | cons a t ih =>
    simp only [sortByDist, mem_insertByDist, ih, List.mem_cons]

theorem sorted_sortByDist (l : List (IndexEntry × ℚ)) :
    (sortByDist l).Pairwise (fun a b => a.2 ≤ b.2) := by
  induction l with
  | nil => simp [sortByDist]
  | cons a t ih => exact sorted_insertByDist a (sortByDist t) ih

/-- Claim C7: `search_similar(contract_id, query, k)` returns only entries
whose metadata `contract_id` matches, ranked by ascending distance (nearest
first), and returns the empty sequence when no stored entry matches the
filter. -/
theorem claim_C7_search_scoped (coll : Collection) (cid query : PyStr) (k : Nat) :
    (∀ r ∈ search_similar coll cid query k, r.metadata.contract_id = cid) ∧
    (search_similar coll cid query k).Pairwise (fun a b => a.distance ≤ b.distance) ∧
    ((∀ e ∈ coll, e.metadata.contract_id ≠ cid) →
       search_similar coll cid query k = []) := by
  refine ⟨?_, ?_, ?_⟩
  · intro r hr
    unfold search_similar collectionQuery at hr
    obtain ⟨p, hp, rfl⟩ := List.mem_map.mp hr
    have hp2 : p ∈ sortByDist ((coll.filter
        (fun e => e.metadata.contract_id == cid)).map
        (fun e => (e, sqDist e.embedding (get_embedding query)))) :=
      List.mem_of_mem_take hp
    obtain ⟨e, he, rfl⟩ := List.mem_map.mp ((mem_sortByDist _ _).mp hp2)
    have hcid := (List.mem_filter.mp he).2
    simpa using hcid
  · unfold search_similar collectionQuery
    refine List.pairwise_map.mpr ?_
    exact List.Pairwise.sublist (List.take_sublist _ _) (sorted_sortByDist _)
  · intro hnone
    unfold search_similar collectionQuery
    have hfil : coll.filter (fun e => e.metadata.contract_id == cid) = [] := by
      apply List.filter_eq_nil_iff.mpr
      intro e he
      simpa using hnone e he
    rw [hfil]
    simp [sortByDist]

/-- Witness for C7: a two-contract index; searching contract `"A"` returns an
entry of `"A"`, and searching contract `"B"`, which has no entries, returns the
empty sequence. -/
theorem claim_C7_witness :
    ({ id := pstr "a1", text := pstr "alpha", distance := 1,
       metadata := { contract_id := pstr "A", clause_type := pstr "misc",
                     index := 0, risk_level := pstr "low" } } :
        SearchResult).metadata.contract_id = pstr "A" ∧
    search_similar
      [{ id := pstr "a1", embedding := [1], document := pstr "alpha",
         metadata := { contract_id := pstr "A", clause_type := pstr "misc",
                       index := 0, risk_level := pstr "low" } },
       { id := pstr "c1", embedding := [2], document := pstr "gamma",
         metadata := { contract_id := pstr "C", clause_type := pstr "misc",
                       index := 0, risk_level := pstr "low" } }]
      (pstr "B") (pstr "q") 5 = [] := by
  constructor
  · exact (claim_C7_search_scoped
      [{ id := pstr "a1", embedding := [1], document := pstr "alpha",
         metadata := { contract_id := pstr "A", clause_type := pstr "misc",
                       index := 0, risk_level := pstr "low" } },
       { id := pstr "c1", embedding := [2], document := pstr "gamma",
         metadata := { contract_id := pstr "C", clause_type := pstr "misc",
                       index := 0, risk_level := pstr "low" } }]
      (pstr "A") (pstr "q") 5).1 _ (by with_unfolding_all decide)
  · exact (claim_C7_search_scoped _ (pstr "B") (pstr "q") 5).2.2
      (by with_unfolding_all decide)

/-- The stored clause text before the edit (claim C1 fixture). -/
def c1OldText : PyStr := pstr "Payment is due within 30 days of invoice receipt date."

/-- The new clause text submitted to the clause-edit endpoint (claim C1 fixture). -/
def c1NewText : PyStr := pstr "The contractor shall have unlimited liability for all damages."

/-- The stored clause before the edit (claim C1 fixture). -/
def c1Clause : Clause :=
  { id := pstr "c1_clause_0", contract_id := pstr "c1", index := 0,
    text := c1OldText, clause_type := .payment,
    risk_score := some (2/10), risk_level := some .low }

/-- The stored contract before the edit (claim C1 fixture). -/
def c1Contract : Contract :=
  { id := pstr "c1", title := pstr "t", text := c1OldText, clauses := [c1Clause] }

/-- The semantic index after upload indexed the clause (claim C1 fixture). -/
def c1Index : Collection := upsert_clauses [] (pstr "c1") [c1Clause]

/-- Claim C1 is violated by the code: `analyze_clause` re-classifies and
re-scores the edited clause and succeeds, but — as its embedding shows, the
route reads and writes only the contract store and never touches the vector
store — the semantic index still holds the pre-edit entry for that clause id:
a stale per-clause entry reflecting the old text remains. -/
theorem claim_C1_stale_index_entry :
    ((analyze_clause [c1Contract] (pstr "c1") (pstr "c1_clause_0") c1NewText
        (.error [])).toOption.map
      (fun p => (p.2.text, p.2.clause_type, p.2.risk_level)) =
      some (c1NewText, .liability, some .high)) ∧
    ((c1Index.find? (fun e => e.id == pstr "c1_clause_0")).map
      (fun e => e.document) = some c1OldText) ∧
    c1OldText ≠ c1NewText := by
  refine ⟨by with_unfolding_all decide, by with_unfolding_all decide, by decide⟩

end LexGuard
